import Mathlib

/-!
Verification of the invoice-approval state machine in `discord1.py` and the
ledger-oracle adapter in `src/eth/etherscan_client.py`.

The Python code is shallowly embedded: the message handler
(`handle_thread_message`, `process_approval_message`), the reference-extraction
regex cascade, the SLA time rendering (`_compute_time_remaining`), invoice
validation (`process_invoice_node`), the store writer (`save_state`) and the
Etherscan adapter are translated into executable Lean definitions. Outbound
side effects (Discord sends, store writes, spreadsheet mirroring, ledger
lookups) are recorded as an explicit list of `Effect`s, one constructor per
call site in the source. External oracles (the Etherscan API) are passed in
as explicit parameters describing the outcome of each call.
-/

namespace Graphay

/-- Python truthiness of an optional string: `None` and `""` are falsy. -/
def truthy : Option String → Bool
  | none => false
  | some s => s ≠ ""

/-- Python truthiness of an optional integer: `None` and `0` are falsy. -/
def truthyNat : Option Nat → Bool
  | none => false
  | some n => n ≠ 0

/-- Python `a or b` for an optional string `a` and default `b`:
falsy (`None`/`""`) falls through to the default. -/
def pyOr : Option String → String → String
  | none, d => d
  | some s, d => if s = "" then d else s

/-- Python `str.lower()` (ASCII, matching the ASCII message content involved). -/
def pyLower (s : String) : String := String.mk (s.data.map Char.toLower)

/-- Python whitespace, as stripped by `str.strip()`. -/
def isPySpace (c : Char) : Bool :=
  c = ' ' ∨ c = '\t' ∨ c = '\n' ∨ c = '\r' ∨ c = '\x0b' ∨ c = '\x0c'

/-- Python `str.strip()`: remove leading and trailing whitespace. -/
def pyStrip (s : String) : String :=
  String.mk (((s.data.dropWhile isPySpace).reverse.dropWhile isPySpace).reverse)

/-! ## The record: `InvoiceState` (TypedDict in `discord1.py`) -/

/-- The `InvoiceState` TypedDict of `discord1.py`.  `invoice_data` is the
extracted field snapshot, a string-keyed dict whose values may be `None`
(modelled `Option String`). -/
structure InvoiceState where
  invoice_data : List (String × Option String)
  discord_thread_id : Option String
  discord_message_id : Option String
  approval_status : String
  cost_center : Option String
  approver : Option String
  rejection_reason : Option String
  payment_status : String
  transaction_id : Option String
  paid_amount_eth : Option ℚ
  reminder_count : Nat
  last_reminder : Option String
  spreadsheet_row : Option Nat
  sla_message_id : Option String
  approval_sla_hours : Nat
  deriving DecidableEq, Repr

/-- Lookup of a key in the `invoice_data` dict; `some v` when the key is
present with value `v` (which may itself be `none`, i.e. JSON null). -/
def findVal (k : String) : List (String × Option String) → Option (Option String)
  | [] => none
  | (k', v) :: t => if k' = k then some v else findVal k t

/-- `state['invoice_data']['Invoice Number']` as used by
`process_approval_message` (line 770).  Records handled by the claims carry
the key with a string value. -/
def invoiceNumberOf (st : InvoiceState) : String :=
  match findVal "Invoice Number" st.invoice_data with
  | some (some v) => v
  | _ => ""

/-- The structured action returned by `parse_message_with_llm` (both the LLM
path after null-normalization and the heuristic fallback): keys `intent`,
`cost_center`, `reason`, `transaction_id`. -/
structure ParsedAction where
  intent : Option String
  cost_center : Option String
  reason : Option String
  transaction_id : Option String
  deriving DecidableEq, Repr

/-- `(parsed.get('intent') or 'none').lower().strip()` (line 608). -/
def intentOf (p : ParsedAction) : String :=
  pyStrip (pyLower (pyOr p.intent "none"))

/-! ## Regex matchers used by the payment-reference cascade

Python's `re.search` scans positions left to right and succeeds at the first
position where the pattern matches; all patterns here are deterministic after
the one-character optional class, whose greedy/backtracking behaviour is
modelled explicitly.  All matching is `re.IGNORECASE`. -/

/-- `[a-fA-F0-9]`. -/
def isHexDigit (c : Char) : Bool :=
  ('0' ≤ c ∧ c ≤ '9') ∨ ('a' ≤ c ∧ c ≤ 'f') ∨ ('A' ≤ c ∧ c ≤ 'F')

/-- `[A-Z0-9]` under `re.IGNORECASE`. -/
def isAlnumTok (c : Char) : Bool :=
  ('A' ≤ c ∧ c ≤ 'Z') ∨ ('a' ≤ c ∧ c ≤ 'z') ∨ ('0' ≤ c ∧ c ≤ '9')

/-- `[:\s]` — a colon or Python whitespace. -/
def isSep (c : Char) : Bool :=
  c = ':' ∨ c = ' ' ∨ c = '\t' ∨ c = '\n' ∨ c = '\r' ∨ c = '\x0b' ∨ c = '\x0c'

/-- Case-insensitive character comparison (ASCII). -/
def eqCI (a b : Char) : Bool := a.toLower = b.toLower

/-- Python `pat in s` for strings: substring containment. -/
def containsSub (pat : List Char) : List Char → Bool
  | [] => pat.isEmpty
  | c :: t => pat.isPrefixOf (c :: t) || containsSub pat t

/-- Match the pattern `0x[a-fA-F0-9]{64}` (pattern 1 of the cascade) anchored
at the start of `s`; returns the matched text.  Exactly 64 hex digits are
consumed; extra trailing hex digits do not block the match. -/
def matchHexAt : List Char → Option (List Char)
  | c :: x :: rest =>
    if c = '0' ∧ (x = 'x' ∨ x = 'X')
        ∧ (rest.take 64).length = 64 ∧ (rest.take 64).all isHexDigit
    then some (c :: x :: rest.take 64) else none
  | _ => none

/-- `re.search`: try the anchored matcher at each position, leftmost wins. -/
def regexSearch (m : List Char → Option (List Char)) : List Char → Option (List Char)
  | [] => m []
  | c :: t =>
    match m (c :: t) with
    | some r => some r
    | none => regexSearch m t

/-- `[:\s]+([A-Z0-9]{6,})` anchored at `s`: one or more separators, then a
captured alphanumeric run of length ≥ 6 (greedy, deterministic since the two
character classes are disjoint). -/
def sepCapture (s : List Char) : Option (List Char) :=
  let sep := s.takeWhile isSep
  if sep.isEmpty then none
  else
    let cap := (s.drop sep.length).takeWhile isAlnumTok
    if 6 ≤ cap.length then some cap else none

/-- A literal (`":"` for the `REF[ERENCE]?:` pattern, empty otherwise)
followed by `[:\s]+([A-Z0-9]{6,})`. -/
def litSepCapture (lit : List Char) (s : List Char) : Option (List Char) :=
  match lit with
  | [] => sepCapture s
  | l :: ls =>
    match s with
    | [] => none
    | c :: cs => if eqCI l c then litSepCapture ls cs else none

/-- Shape of cascade patterns 2–6: a keyword, an optional single character
from a class, a literal, then separator(s) and the captured token. -/
structure KwPat where
  kw : List Char
  opt : List Char
  lit : List Char

/-- Case-insensitively strip `pre` from the front of `s`. -/
def dropPrefixCI : List Char → List Char → Option (List Char)
  | [], s => some s
  | _ :: _, [] => none
  | k :: ks, c :: cs => if eqCI k c then dropPrefixCI ks cs else none

/-- Match a keyword pattern anchored at `s`.  The optional class is greedy
with backtracking: if consuming one class character makes the rest fail, the
match is retried with the class matching empty (Python `[ID]?` semantics). -/
def matchKwAt (p : KwPat) (s : List Char) : Option (List Char) :=
  match dropPrefixCI p.kw s with
  | none => none
  | some rest =>
    match rest with
    | [] => litSepCapture p.lit []
    | c :: rest2 =>
      if p.opt.any (fun o => eqCI o c) then
        match litSepCapture p.lit rest2 with
        | some cap => some cap
        | none => litSepCapture p.lit rest
      else litSepCapture p.lit rest

/-- Pattern 7, `([A-Z0-9]{8,64})`, anchored at `s`: greedy run of
alphanumerics, at least 8 and at most 64 captured. -/
def matchBareTokenAt (s : List Char) : Option (List Char) :=
  let run := s.takeWhile isAlnumTok
  if 8 ≤ run.length then some (run.take 64) else none

/-- `TX[ID]?[:\s]+([A-Z0-9]{6,})`. -/
def txPat : KwPat := ⟨['T', 'X'], ['I', 'D'], []⟩

/-- `TRANSACTION[ID]?[:\s]+([A-Z0-9]{6,})`. -/
def transactionPat : KwPat :=
  ⟨['T', 'R', 'A', 'N', 'S', 'A', 'C', 'T', 'I', 'O', 'N'], ['I', 'D'], []⟩

/-- `REF[ERENCE]?:[:\s]+([A-Z0-9]{6,})`. -/
def refPat : KwPat := ⟨['R', 'E', 'F'], ['E', 'R', 'E', 'N', 'C', 'E'], [':']⟩

/-- `PAYMENT[:\s]+([A-Z0-9]{6,})`. -/
def paymentPat : KwPat := ⟨['P', 'A', 'Y', 'M', 'E', 'N', 'T'], [], []⟩

/-- `COMPLETED[:\s]+([A-Z0-9]{6,})`. -/
def completedPat : KwPat := ⟨['C', 'O', 'M', 'P', 'L', 'E', 'T', 'E', 'D'], [], []⟩

/-- The `tx_patterns` cascade of `handle_thread_message` (lines 654–667):
seven patterns tried in order, the first `re.search` hit supplying the
captured group as the transaction reference. -/
def extract_transaction_id (raw : List Char) : Option (List Char) :=
  match regexSearch matchHexAt raw with
  | some r => some r
  | none =>
  match regexSearch (matchKwAt txPat) raw with
  | some r => some r
  | none =>
  match regexSearch (matchKwAt transactionPat) raw with
  | some r => some r
  | none =>
  match regexSearch (matchKwAt refPat) raw with
  | some r => some r
  | none =>
  match regexSearch (matchKwAt paymentPat) raw with
  | some r => some r
  | none =>
  match regexSearch (matchKwAt completedPat) raw with
  | some r => some r
  | none => regexSearch matchBareTokenAt raw

/-- `re.fullmatch(r"0x[a-fA-F0-9]{64}", t, re.IGNORECASE)` (line 670). -/
def fullmatchHex (l : List Char) : Bool :=
  match l with
  | c :: x :: rest =>
    (c = '0' : Bool) && (x = 'x' ∨ x = 'X' : Bool)
      && (rest.length = 64 : Bool) && rest.all isHexDigit
  | _ => false

/-- `fullmatchHex` on a `String`. -/
def fullmatchHexStr (t : String) : Bool := fullmatchHex t.data

/-! ## Ledger oracle adapter (`src/eth/etherscan_client.py`)

`_etherscan_get` either returns the JSON payload of the call (after its own
internal retries) or raises; both adapter functions catch every exception.
The outcome of each call, per transaction hash, is supplied by an `Oracle`
value; `err` covers network failure, retry exhaustion and malformed-shape
exceptions raised while reading the payload. -/

/-- Outcome of one `_etherscan_get` call. -/
inductive OracleResp (α : Type) where
  | ok (a : α)
  | err
  deriving DecidableEq, Repr

/-- The external Etherscan oracle: the receipt-status field
`data["result"]["status"]` (absent keys give `none`) and the parsed
transaction value `int(data["result"]["value"], 16)` in wei. -/
structure Oracle where
  receiptStatus : String → OracleResp (Option String)
  txnValueWei : String → OracleResp Nat

/-- `check_transaction_success` (etherscan_client.py lines 30–43): true
exactly when the oracle call succeeds and reports status `"1"`; every
exception is caught and yields `False`. -/
def check_transaction_success (o : Oracle) (tx_hash : String) : Bool :=
  match o.receiptStatus tx_hash with
  | .err => false
  | .ok st => st = some "1"

/-- `get_transaction_amount_eth` (etherscan_client.py lines 46–60):
`wei / 10^18`, with every exception caught and yielding `0.0`.  (Python
divides as a float; the claims only concern the exact error value `0`.) -/
def get_transaction_amount_eth (o : Oracle) (tx_hash : String) : ℚ :=
  match o.txnValueWei tx_hash with
  | .err => 0
  | .ok wei => (wei : ℚ) / 10 ^ 18

/-! ## Observable side effects of the message handler

One constructor per outbound call site in `handle_thread_message` /
`process_approval_message`:  Discord sends carry the data interpolated into
the message, `saveState` is a `save_state` store write, `mirrorRow` is an
`update_spreadsheet_row` cell-update pass, `verifyOnChain` is the pair of
ledger-oracle lookups dispatched for a hash-shaped reference. -/

inductive Effect where
  | sendStatusEmbed
  | sendAlreadyDecided (status : String) (approver : Option String)
  | sendCostCenterPrompt
  | sendApprovedEmbed (invoice cost_center : String)
  | sendRejectedEmbed (invoice reason : String)
  | sendAlreadyCompleted (tx : Option String)
  | verifyOnChain (tx : String)
  | sendPaymentEmbed (success : Bool) (tx : String) (amount : ℚ)
  | sendPaymentConfirmedEmbed (tx : String)
  | sendFormatGuidance
  | saveState (invoice : String) (st : InvoiceState)
  | mirrorRow (st : InvoiceState)
  deriving DecidableEq, Repr

/-- `safe_send` (lines 534–545): the send is skipped (no effect) when the
client is shutting down. -/
def safeSend (shuttingDown : Bool) (e : Effect) : List Effect :=
  if shuttingDown then [] else [e]

/-- `update_spreadsheet_row` (lines 475–505): performs its cell updates only
when `state.get('spreadsheet_row')` is truthy, otherwise does nothing. -/
def update_spreadsheet_row (st : InvoiceState) : List Effect :=
  if truthyNat st.spreadsheet_row then [.mirrorRow st] else []

/-- Python `content.split(' ', 1)`: split at the first space only. -/
def splitOnceAux : List Char → Option (List Char × List Char)
  | [] => none
  | ' ' :: t => some ([], t)
  | c :: t =>
    match splitOnceAux t with
    | none => none
    | some (a, b) => some (c :: a, b)

/-- Python `content.split(' ', 1)` on a `String`. -/
def splitOnce (s : String) : List String :=
  match splitOnceAux s.data with
  | none => [s]
  | some (a, b) => [String.mk a, String.mk b]

/-! ## `process_approval_message` (lines 767–814) -/

/-- `process_approval_message(message, state, decision)`.  `content` is the
rewritten `message.content`; the author identity string is
`f"{display_name} ({name})"`.  Note the in-memory `state` dict is mutated
(status and approver) *before* the cost-center check; the missing-cost-center
branch returns without persisting, so the store never sees that mutation. -/
def process_approval_message (shuttingDown : Bool)
    (authorDisplay authorName : String) (content : String)
    (st : InvoiceState) (decision : String) : List Effect × InvoiceState :=
  let content := pyStrip content
  let inv := invoiceNumberOf st
  let st1 := { st with approval_status := decision,
                       approver := some (authorDisplay ++ " (" ++ authorName ++ ")") }
  if decision = "approved" then
    let parts := splitOnce content
    if parts.length > 1 then
      let cc := pyStrip (parts.getD 1 "")
      let st2 := { st1 with cost_center := some cc }
      (safeSend shuttingDown (.sendApprovedEmbed inv cc)
        ++ [.saveState inv st2] ++ update_spreadsheet_row st2, st2)
    else
      (safeSend shuttingDown .sendCostCenterPrompt, st1)
  else if decision = "rejected" then
    let parts := splitOnce content
    let reason := if parts.length > 1 then pyStrip (parts.getD 1 "")
                  else "No reason provided"
    let st2 := { st1 with rejection_reason := some reason }
    (safeSend shuttingDown (.sendRejectedEmbed inv reason)
      ++ [.saveState inv st2] ++ update_spreadsheet_row st2, st2)
  else
    ([.saveState inv st1] ++ update_spreadsheet_row st1, st1)

/-! ## Payment section of `handle_thread_message` (lines 636–722) -/

/-- The payment-confirmation block, entered after the status / re-decision /
pending-approval branches fall through.  `invoice_number` is the key found by
the thread lookup; `intent` is the normalized resolver intent. -/
def handle_payment (shuttingDown : Bool) (invoice_number : String)
    (st : InvoiceState) (parsed : ParsedAction) (intent : String)
    (raw : List Char) (o : Oracle) : List Effect × InvoiceState :=
  if st.payment_status = "pending" then
    let contentUpper := raw.map Char.toUpper
    let looks_like_payment :=
      intent = "payment"
      ∨ (["TX", "TRANSACTION", "REF", "PAYMENT", "COMPLETED"].any
          (fun k => containsSub k.data contentUpper))
      ∨ (regexSearch matchHexAt raw).isSome
    if looks_like_payment then
      if truthy st.transaction_id ∧ st.payment_status = "completed" then
        (safeSend shuttingDown (.sendAlreadyCompleted st.transaction_id), st)
      else
        let tid : Option String :=
          if truthy parsed.transaction_id then parsed.transaction_id
          else (extract_transaction_id raw).map String.mk
        match tid with
        | some t =>
          if fullmatchHexStr t then
            let txNorm := pyLower t
            let success := check_transaction_success o txNorm
            let amount := get_transaction_amount_eth o txNorm
            let st' := { st with transaction_id := some txNorm,
                                 paid_amount_eth := some amount,
                                 payment_status :=
                                   if success then "completed" else "failed" }
            ([.verifyOnChain txNorm, .saveState invoice_number st']
              ++ update_spreadsheet_row st'
              ++ safeSend shuttingDown (.sendPaymentEmbed success t amount), st')
          else
            let st' := { st with transaction_id := some t,
                                 payment_status := "completed" }
            ([.saveState invoice_number st'] ++ update_spreadsheet_row st'
              ++ safeSend shuttingDown (.sendPaymentConfirmedEmbed t), st')
        | none =>
          if intent = "payment" then
            (safeSend shuttingDown .sendFormatGuidance, st)
          else ([], st)
    else ([], st)
  else ([], st)

/-! ## `handle_thread_message` (lines 547–722)

The thread-to-invoice lookup has already resolved `invoice_number` and loaded
`st`; `hasRole` is the approving-role membership check, `shuttingDown` the
client shutdown flag, `parsed` the resolver output, `raw` the stripped
message text, `o` the ledger oracle. -/

def handle_thread_message (shuttingDown hasRole : Bool)
    (authorDisplay authorName invoice_number : String) (st : InvoiceState)
    (parsed : ParsedAction) (raw : List Char) (o : Oracle) :
    List Effect × InvoiceState :=
  if shuttingDown then ([], st)
  else if ¬ hasRole then ([], st)
  else
    let intent := intentOf parsed
    if intent = "status" then
      (safeSend shuttingDown .sendStatusEmbed, st)
    else if st.approval_status ≠ "pending" ∧ (intent = "approve" ∨ intent = "reject") then
      (safeSend shuttingDown
        (.sendAlreadyDecided st.approval_status st.approver), st)
    else if st.approval_status = "pending" ∧ intent = "approve" then
      let content := if truthy parsed.cost_center
                     then "APPROVE " ++ (parsed.cost_center.getD "")
                     else "APPROVE"
      process_approval_message shuttingDown authorDisplay authorName content st "approved"
    else if st.approval_status = "pending" ∧ intent = "reject" then
      let content := pyStrip ("REJECT " ++ pyOr parsed.reason "")
      process_approval_message shuttingDown authorDisplay authorName content st "rejected"
    else
      handle_payment shuttingDown invoice_number st parsed intent raw o

/-! ## The record store -/

/-- The `invoice_states` table: invoice number ↦ state JSON blob. -/
def Store := List (String × InvoiceState)

/-- `INSERT OR REPLACE` keyed by invoice number. -/
def upsert (store : Store) (k : String) (v : InvoiceState) : Store :=
  match store with
  | [] => [(k, v)]
  | (k', v') :: t => if k' = k then (k, v) :: t else (k', v') :: upsert t k v

/-- Apply one effect to the store: only `saveState` writes. -/
def applyEffect (store : Store) : Effect → Store
  | .saveState k v => upsert store k v
  | _ => store

/-- Apply a handler's effect list to the store, in order. -/
def applyEffects (store : Store) : List Effect → Store
  | [] => store
  | e :: t => applyEffects (applyEffect store e) t

/-! ## `save_state` (lines 175–193)

The writer loop: up to 5 attempts; a lock/busy `OperationalError` is meant to
back off via `time.sleep(delay)` with `delay` doubling from 0.1s — but the
`time` module is never imported in `discord1.py` (lines 1–27), so evaluating
`time.sleep` raises `NameError`; a non-transient `OperationalError` is
re-raised; if all attempts were consumed without a `break` the `for` loop
simply ends and the function returns normally, surfacing nothing. -/

/-- Outcome of one `INSERT OR REPLACE` + `commit` attempt. -/
inductive StoreOutcome where
  | ok
  | lockedBusy
  | otherError
  deriving DecidableEq, Repr

/-- Python exceptions surfaced by the embedded code. -/
inductive PyError where
  | nameError (ident : String)
  | operationalError
  | valueError (msg : String)
  deriving DecidableEq, Repr

/-- `time.sleep(delay)`: the name `time` is unbound in `discord1.py`. -/
def timeSleep : Except PyError Unit := .error (.nameError "time")

/-- The retry loop of `save_state`; `store i` is the outcome of the i-th
attempt, `n` the remaining iterations of `range(retries)`. -/
def save_state_go (store : Nat → StoreOutcome) : Nat → Nat → Except PyError Unit
  | _, 0 => .ok ()
  | i, n + 1 =>
    match store i with
    | .ok => .ok ()
    | .lockedBusy => do
        let _ ← timeSleep
        save_state_go store (i + 1) n
    | .otherError => .error .operationalError

/-- `save_state` with `retries = 5`, `delay = 0.1`. -/
def save_state (store : Nat → StoreOutcome) : Except PyError Unit :=
  save_state_go store 0 5

/-! ## `_compute_time_remaining` (lines 939–948)

Timestamps are modelled in seconds; `createdSec` is the parsed
`invoice_data['Timestamp']`, `nowSec` is `datetime.now()`.  The state's
`approval_sla_hours` falls back to the config value when falsy (`or`). -/

def compute_time_remaining (createdSec : ℤ) (stateSla : Option Nat)
    (cfgSla : Nat) (nowSec : ℤ) : String × ℤ :=
  let slaHours : Nat :=
    match stateSla with
    | none => cfgSla
    | some 0 => cfgSla
    | some h => h
  let deadline := createdSec + (slaHours : ℤ) * 3600
  let secondsRemaining : ℤ := max 0 (deadline - nowSec)
  let hours := secondsRemaining / 3600
  let minutes := (secondsRemaining % 3600) / 60
  let timeText :=
    if 0 < secondsRemaining
    then toString hours ++ "h " ++ toString minutes ++ "m"
    else "Expired"
  (timeText, secondsRemaining)

/-! ## `process_invoice_node` (lines 223–247) -/

/-- The required invoice fields (lines 228–232). -/
def required_fields : List String :=
  ["Timestamp", "Vendor Name", "Invoice Number", "Invoice Date",
   "Total Amount", "Currency", "Line Items Count", "Account Holder",
   "Bank Address", "Account Number/IBAN"]

/-- Python `field not in state['invoice_data']`: key absence. -/
def hasKey (d : List (String × Option String)) (k : String) : Bool :=
  (findVal k d).isSome

/-- `process_invoice_node`: raise `ValueError` when any required key is
missing from `invoice_data`, otherwise initialize the approval record. -/
def process_invoice_node (st : InvoiceState) : Except PyError InvoiceState :=
  let missing := required_fields.filter (fun f => ¬ hasKey st.invoice_data f)
  if missing ≠ [] then
    .error (.valueError "Missing required fields")
  else
    .ok { st with approval_status := "pending",
                  payment_status := "pending",
                  reminder_count := 0,
                  last_reminder := none }

/-! ## Sample records and oracles used to instantiate the theorems -/

/-- A fully populated `invoice_data` payload (the sample invoice of the
module's `main`). -/
def sampleData : List (String × Option String) :=
  [("Timestamp", some "2025-08-05T00:00:00"), ("Vendor Name", some "Acme Corp"),
   ("Invoice Number", some "INV-2025-001"), ("Invoice Date", some "2025-08-05"),
   ("Total Amount", some "1500.00"), ("Currency", some "USD"),
   ("Line Items Count", some "3"), ("Account Holder", some "Acme Corporation"),
   ("Bank Address", some "123 Main St"), ("Account Number/IBAN", some "US123")]

/-- A freshly created pending record with a posted thread and spreadsheet row. -/
def samplePending : InvoiceState :=
  { invoice_data := sampleData, discord_thread_id := some "111",
    discord_message_id := some "222", approval_status := "pending",
    cost_center := none, approver := none, rejection_reason := none,
    payment_status := "pending", transaction_id := none, paid_amount_eth := none,
    reminder_count := 0, last_reminder := none, spreadsheet_row := some 2,
    sla_message_id := some "333", approval_sla_hours := 24 }

/-- A record already approved by Bob. -/
def approvedSample : InvoiceState :=
  { samplePending with approval_status := "approved",
                       approver := some "Bob (bob)", cost_center := some "CC-7" }

/-- A record whose payment is already completed. -/
def completedSample : InvoiceState :=
  { approvedSample with payment_status := "completed",
                        transaction_id := some "TXABC123" }

/-- An oracle on which every call raises. -/
def nullOracle : Oracle := ⟨fun _ => .err, fun _ => .err⟩

/-- An oracle reporting receipt status `"0"` and raising on the value call. -/
def failOracle : Oracle := ⟨fun _ => .ok (some "0"), fun _ => .err⟩

/-- A well-formed 64-hex-digit transaction hash (mixed case). -/
def hex64 : String :=
  "0xaBaBaBaBaBaBaBaBaBaBaBaBaBaBaBaBaBaBaBaBaBaBaBaBaBaBaBaBaBaBaBaB"

/-! ## Helper lemmas -/

/-- Effect lists without a `saveState` leave any store unchanged; in
particular a lone send does. -/
theorem applyEffects_single_nonsave (e : Effect)
    (he : ∀ k v, e ≠ .saveState k v) (store : Store) :
    applyEffects store [e] = store := by
  cases e <;> first
    | rfl
    | exact absurd rfl (he _ _)

/-! ## Claim C1 -/

/-- Claim C1: approval status is monotonic.  For every record whose
`approval_status` is `approved` or `rejected`, an authorized message
classified as approve or reject produces exactly one informational
acknowledgment reply carrying the current status and approver, and leaves the
store — hence every field of the stored record — unchanged. -/
theorem c1_approval_monotonic
    (d n inv : String) (st : InvoiceState) (p : ParsedAction)
    (raw : List Char) (o : Oracle)
    (hterm : st.approval_status = "approved" ∨ st.approval_status = "rejected")
    (hint : intentOf p = "approve" ∨ intentOf p = "reject") :
    handle_thread_message false true d n inv st p raw o
      = ([.sendAlreadyDecided st.approval_status st.approver], st)
    ∧ ∀ store : Store,
        applyEffects store
          (handle_thread_message false true d n inv st p raw o).1 = store := by
  have hne : st.approval_status ≠ "pending" := by
    rcases hterm with h | h <;> rw [h] <;> decide
  have hns : intentOf p ≠ "status" := by
    rcases hint with h | h <;> rw [h] <;> decide
  have hmain : handle_thread_message false true d n inv st p raw o
      = ([.sendAlreadyDecided st.approval_status st.approver], st) := by
    unfold handle_thread_message
    simp only [if_neg hns, if_pos (And.intro hne hint), safeSend]
    simp
  refine ⟨hmain, fun store => ?_⟩
  rw [hmain]
  exact applyEffects_single_nonsave _ (fun k v => by simp) store

/-- Witness for C1: a second `REJECT spam` on an approved record is
acknowledged and the record is untouched. -/
theorem c1_approval_monotonic_witness :
    handle_thread_message false true "Ann" "ann" "INV-2025-001" approvedSample
        ⟨some "reject", none, some "spam", none⟩ ("REJECT spam".data) nullOracle
      = ([.sendAlreadyDecided "approved" (some "Bob (bob)")], approvedSample) :=
  (c1_approval_monotonic "Ann" "ann" "INV-2025-001" approvedSample
    ⟨some "reject", none, some "spam", none⟩ ("REJECT spam".data) nullOracle
    (Or.inl rfl) (Or.inr (by decide))).1

/-! ## Claim C2 -/

/-- Claim C2: on a pending record, an authorized message classified as
approve with cost-center token `CC-42` sets `approval_status` to `approved`,
`cost_center` to `CC-42`, sets the approver identity, persists the record to
the store, and triggers exactly one spreadsheet mirror update. -/
theorem c2_approve_with_cost_center
    (d n inv : String) (st : InvoiceState) (p : ParsedAction)
    (raw : List Char) (o : Oracle)
    (hpend : st.approval_status = "pending")
    (hint : intentOf p = "approve")
    (hcc : p.cost_center = some "CC-42")
    (hrow : truthyNat st.spreadsheet_row = true) :
    (handle_thread_message false true d n inv st p raw o).2.approval_status = "approved"
    ∧ (handle_thread_message false true d n inv st p raw o).2.cost_center = some "CC-42"
    ∧ (handle_thread_message false true d n inv st p raw o).2.approver
        = some (d ++ " (" ++ n ++ ")")
    ∧ (handle_thread_message false true d n inv st p raw o).1
        = [.sendApprovedEmbed (invoiceNumberOf st) "CC-42",
           .saveState (invoiceNumberOf st)
             (handle_thread_message false true d n inv st p raw o).2,
           .mirrorRow (handle_thread_message false true d n inv st p raw o).2] := by
  have hns : intentOf p ≠ "status" := by rw [hint]; decide
  have hnd : ¬ (st.approval_status ≠ "pending"
      ∧ (intentOf p = "approve" ∨ intentOf p = "reject")) := by
    rintro ⟨h, -⟩; exact h hpend
  have hmain : handle_thread_message false true d n inv st p raw o
      = process_approval_message false d n "APPROVE CC-42" st "approved" := by
    unfold handle_thread_message
    simp only [if_neg hns, if_neg hnd, if_pos (And.intro hpend hint), hcc]
    simp [truthy]
  have hsplit : splitOnce (pyStrip "APPROVE CC-42") = ["APPROVE", "CC-42"] := by decide
  have hstrip : pyStrip "CC-42" = "CC-42" := by decide
  rw [hmain]
  unfold process_approval_message
  simp only [hsplit, update_spreadsheet_row]
  simp [safeSend, hstrip, hrow]

/-- Witness for C2: `APPROVE CC-42` on the sample pending record. -/
theorem c2_approve_with_cost_center_witness :
    (handle_thread_message false true "Ann" "ann" "INV-2025-001" samplePending
        ⟨some "approve", some "CC-42", none, none⟩ ("APPROVE CC-42".data)
        nullOracle).2.approval_status = "approved"
    ∧ (handle_thread_message false true "Ann" "ann" "INV-2025-001" samplePending
        ⟨some "approve", some "CC-42", none, none⟩ ("APPROVE CC-42".data)
        nullOracle).2.cost_center = some "CC-42"
    ∧ (handle_thread_message false true "Ann" "ann" "INV-2025-001" samplePending
        ⟨some "approve", some "CC-42", none, none⟩ ("APPROVE CC-42".data)
        nullOracle).2.approver = some ("Ann" ++ " (" ++ "ann" ++ ")")
    ∧ (handle_thread_message false true "Ann" "ann" "INV-2025-001" samplePending
        ⟨some "approve", some "CC-42", none, none⟩ ("APPROVE CC-42".data)
        nullOracle).1
      = [.sendApprovedEmbed (invoiceNumberOf samplePending) "CC-42",
         .saveState (invoiceNumberOf samplePending)
           (handle_thread_message false true "Ann" "ann" "INV-2025-001" samplePending
             ⟨some "approve", some "CC-42", none, none⟩ ("APPROVE CC-42".data)
             nullOracle).2,
         .mirrorRow
           (handle_thread_message false true "Ann" "ann" "INV-2025-001" samplePending
             ⟨some "approve", some "CC-42", none, none⟩ ("APPROVE CC-42".data)
             nullOracle).2] :=
  c2_approve_with_cost_center "Ann" "ann" "INV-2025-001" samplePending
    ⟨some "approve", some "CC-42", none, none⟩ ("APPROVE CC-42".data) nullOracle
    (by decide) (by decide) (by decide) (by decide)

/-! ## Claim C5 -/

/-- Claim C5: on a pending record, an authorized approve with no cost-center
token produces only the clarifying cost-center prompt, and the store is left
unchanged — in particular the stored record keeps `approval_status = pending`
and no approver.  (The in-memory dict is mutated by
`process_approval_message` before the check, but the early return skips
`save_state`, so the mutation never reaches the store.) -/
theorem c5_approve_without_cost_center
    (d n inv : String) (st : InvoiceState) (p : ParsedAction)
    (raw : List Char) (o : Oracle)
    (hpend : st.approval_status = "pending")
    (hint : intentOf p = "approve")
    (hcc : truthy p.cost_center = false) :
    (handle_thread_message false true d n inv st p raw o).1 = [.sendCostCenterPrompt]
    ∧ ∀ store : Store,
        applyEffects store
          (handle_thread_message false true d n inv st p raw o).1 = store := by
  have hns : intentOf p ≠ "status" := by rw [hint]; decide
  have hnd : ¬ (st.approval_status ≠ "pending"
      ∧ (intentOf p = "approve" ∨ intentOf p = "reject")) := by
    rintro ⟨h, -⟩; exact h hpend
  have hmain : handle_thread_message false true d n inv st p raw o
      = process_approval_message false d n "APPROVE" st "approved" := by
    unfold handle_thread_message
    simp only [if_neg hns, if_neg hnd, if_pos (And.intro hpend hint), hcc]
    simp
  have hsplit : splitOnce (pyStrip "APPROVE") = ["APPROVE"] := by decide
  have heff : (handle_thread_message false true d n inv st p raw o).1
      = [.sendCostCenterPrompt] := by
    rw [hmain]
    unfold process_approval_message
    simp only [hsplit]
    simp [safeSend]
  refine ⟨heff, fun store => ?_⟩
  rw [heff]
  exact applyEffects_single_nonsave _ (fun k v => by simp) store

/-- Witness for C5: a bare `APPROVE` on the sample pending record. -/
theorem c5_approve_without_cost_center_witness :
    (handle_thread_message false true "Ann" "ann" "INV-2025-001" samplePending
        ⟨some "approve", none, none, none⟩ ("APPROVE".data) nullOracle).1
      = [.sendCostCenterPrompt]
    ∧ applyEffects [("INV-2025-001", samplePending)]
        (handle_thread_message false true "Ann" "ann" "INV-2025-001" samplePending
          ⟨some "approve", none, none, none⟩ ("APPROVE".data) nullOracle).1
      = [("INV-2025-001", samplePending)] := by
  have h := c5_approve_without_cost_center "Ann" "ann" "INV-2025-001" samplePending
    ⟨some "approve", none, none, none⟩ ("APPROVE".data) nullOracle
    (by decide) (by decide) (by decide)
  exact ⟨h.1, h.2 [("INV-2025-001", samplePending)]⟩

/-! ## Claim C3

The claim says a payment-looking message on a record with
`payment_status = completed` is answered with an "already completed" reply
quoting the stored `transaction_ref`.  In the code the whole payment section
(line 637) is guarded by `state['payment_status'] == 'pending'`, so the
"already completed" branch (line 645, which additionally requires
`payment_status == 'completed'`) is unreachable: on a completed record the
handler falls through and produces no reply and no mutation at all. -/

/-- Claim C3, evaluated on the code: a payment-looking message (`payment`
intent, text `PAYMENT COMPLETED`) on a record whose `payment_status` is
`completed` produces no effects whatsoever — no reply, no store write, no
mirror, no re-verification — contradicting the specified "already completed"
acknowledgment. -/
theorem c3_completed_record_code_evaluation :
    handle_thread_message false true "Ann" "ann" "INV-2025-001" completedSample
        ⟨some "payment", none, none, none⟩ ("PAYMENT COMPLETED".data) nullOracle
      = ([], completedSample)
    ∧ completedSample.payment_status = "completed"
    ∧ completedSample.transaction_id = some "TXABC123" := by
  refine ⟨?_, rfl, rfl⟩
  decide

/-! ## Claim C4

The claim says `save_state` retries a transient lock/busy error 5 times with
exponential backoff from 100ms and surfaces a fatal error only after
exhausting the retries.  The loop in `save_state` (lines 175–193) is written
that way, but `discord1.py` never imports the `time` module (lines 1–27), so
the very first `time.sleep(delay)` raises `NameError`, which escapes the
`except sqlite3.OperationalError` clause: the first transient error aborts
the write with no retry.  (Moreover the loop has no `else: raise` — even
with `time` imported, exhausting all 5 attempts would fall out of the loop
silently.)  -/

/-- Claim C4, evaluated on the code: a write whose first attempt reports the
store locked raises `NameError` for the unbound `time` immediately — it is
not retried, even though the second attempt would have succeeded — while a
write succeeding on the first attempt surfaces no error. -/
theorem c4_save_state_code_evaluation :
    save_state (fun i => if i = 0 then .lockedBusy else .ok)
      = .error (.nameError "time")
    ∧ save_state (fun _ => .ok) = .ok () := by
  exact ⟨rfl, rfl⟩

/-! ## Claim C8 -/

/-- Claim C8: SLA time-remaining rendering.  `deadline = created_at +
sla_hours`, `remaining = max(0, deadline − now)`, rendered `"{h}h {m}m"` when
remaining is positive and `"Expired"` when it is zero; with `sla_hours = 24`,
evaluation 25 hours after creation yields `"Expired"` and evaluation 23.5
hours after creation yields `"0h 30m"`. -/
theorem c8_sla_time_rendering :
    (∀ (T : ℤ) (cfg : Nat),
      compute_time_remaining T (some 24) cfg (T + 25 * 3600) = ("Expired", 0)
      ∧ compute_time_remaining T (some 24) cfg (T + 23 * 3600 + 30 * 60)
          = ("0h 30m", 1800))
    ∧ (∀ (c now : ℤ) (s cfg : Nat), s ≠ 0 →
        (compute_time_remaining c (some s) cfg now).2
            = max 0 (c + (s : ℤ) * 3600 - now)
        ∧ ((compute_time_remaining c (some s) cfg now).2 = 0 →
            (compute_time_remaining c (some s) cfg now).1 = "Expired")
        ∧ (0 < (compute_time_remaining c (some s) cfg now).2 →
            (compute_time_remaining c (some s) cfg now).1
              = toString ((compute_time_remaining c (some s) cfg now).2 / 3600)
                ++ "h "
                ++ toString ((compute_time_remaining c (some s) cfg now).2 % 3600 / 60)
                ++ "m")) := by
  constructor
  · intro T cfg
    constructor
    · unfold compute_time_remaining
      have h1 : T + (24 : Nat) * 3600 - (T + 25 * 3600) = -3600 := by push_cast; ring
      simp only [h1]
      decide
    · unfold compute_time_remaining
      have h1 : T + (24 : Nat) * 3600 - (T + 23 * 3600 + 30 * 60) = 1800 := by
        push_cast; ring
      simp only [h1]
      decide
  · intro c now s cfg hs
    match s, hs with
    | Nat.succ k, _ =>
      refine ⟨rfl, fun h0 => ?_, fun hpos => ?_⟩
      · refine if_neg ?_
        show ¬ (0 : ℤ) < 0 ⊔ (c + ((Nat.succ k : Nat) : ℤ) * 3600 - now)
        have hx : ((0 : ℤ) ⊔ (c + ((Nat.succ k : Nat) : ℤ) * 3600 - now)) = 0 := h0
        rw [hx]
        decide
      · exact if_pos hpos

/-- Witness for C8: the two concrete scenarios at `T = 0`, plus the general
clamp at `created = 0`, `sla = 24`, `now = 10 * 3600`. -/
theorem c8_sla_time_rendering_witness :
    (compute_time_remaining 0 (some 24) 24 (0 + 25 * 3600) = ("Expired", 0)
      ∧ compute_time_remaining 0 (some 24) 24 (0 + 23 * 3600 + 30 * 60)
          = ("0h 30m", 1800))
    ∧ (compute_time_remaining 0 (some 24) 24 (10 * 3600)).2
        = max 0 (0 + (24 : ℤ) * 3600 - 10 * 3600) :=
  ⟨(c8_sla_time_rendering.1 0 24),
   ((c8_sla_time_rendering.2 0 (10 * 3600) 24 24 (by decide)).1)⟩

/-! ## Claim C9 -/

/-- Claim C9: record creation fails with a validation error (and creates no
record) exactly when some required invoice field key is absent from the
payload; when every required key is present — even with an empty or null
value — validation passes and the created record starts with
`approval_status = pending`, `payment_status = pending`, `reminder_count = 0`
and the payload snapshot untouched. -/
theorem c9_validation_iff (st : InvoiceState) :
    ((∃ e, process_invoice_node st = .error e)
      ↔ ∃ f ∈ required_fields, hasKey st.invoice_data f = false)
    ∧ (∀ st', process_invoice_node st = .ok st' →
        st'.approval_status = "pending" ∧ st'.payment_status = "pending"
        ∧ st'.reminder_count = 0 ∧ st'.invoice_data = st.invoice_data) := by
  unfold process_invoice_node
  by_cases hm : required_fields.filter
      (fun f => ¬ hasKey st.invoice_data f) = []
  · simp only [hm, ne_eq, not_true_eq_false, if_false]
    constructor
    · constructor
      · rintro ⟨e, he⟩; cases he
      · rintro ⟨f, hf, hkey⟩
        have := List.filter_eq_nil_iff.mp hm f hf
        simp only [decide_not, Bool.not_eq_true', decide_eq_false_iff_not,
          Decidable.not_not] at this
        rw [hkey] at this
        cases this
    · rintro st' h
      cases h
      exact ⟨rfl, rfl, rfl, rfl⟩
  · simp only [ne_eq, hm, not_false_eq_true, if_true]
    constructor
    · constructor
      · intro _
        obtain ⟨f, hf⟩ := List.exists_mem_of_ne_nil _ hm
        have hmem := List.mem_filter.mp hf
        refine ⟨f, hmem.1, ?_⟩
        have := hmem.2
        simp only [decide_not, Bool.not_eq_true', decide_eq_false_iff_not] at this
        simpa using this
      · intro _
        exact ⟨.valueError "Missing required fields", rfl⟩
    · rintro st' h
      cases h

/-- Witness for C9: a payload missing `Timestamp` is rejected; the complete
sample payload is accepted and initialized pending/pending/0. -/
theorem c9_validation_iff_witness :
    (∃ e, process_invoice_node
        { samplePending with invoice_data := [("Vendor Name", some "Acme Corp")] }
      = .error e)
    ∧ (samplePending.approval_status = "pending"
        ∧ samplePending.payment_status = "pending"
        ∧ samplePending.reminder_count = 0
        ∧ samplePending.invoice_data = samplePending.invoice_data) :=
  ⟨(c9_validation_iff
      { samplePending with invoice_data := [("Vendor Name", some "Acme Corp")] }).1.mpr
      ⟨"Timestamp", by decide, by decide⟩,
   (c9_validation_iff samplePending).2 samplePending (by rfl)⟩

/-! ## Claim C6 -/

/-- Anything `matchHexAt` returns has exactly the `0x`+64-hex shape. -/
theorem matchHexAt_shape {s h : List Char} (hm : matchHexAt s = some h) :
    fullmatchHex h = true := by
  match s with
  | [] => simp [matchHexAt] at hm
  | [c] => simp [matchHexAt] at hm
  | c :: x :: rest =>
    simp only [matchHexAt] at hm
    split at hm
    · rename_i hc
      obtain ⟨hc0, hx, hlen, hall⟩ := hc
      cases hm
      simp [fullmatchHex, hc0, hx, hlen, hall]
    · cases hm

/-- A successful hex search returns a `0x`+64-hex-shaped string. -/
theorem regexSearch_hex_shape :
    ∀ {s h : List Char}, regexSearch matchHexAt s = some h → fullmatchHex h = true := by
  intro s
  induction s with
  | nil =>
    intro h hm
    exact matchHexAt_shape hm
  | cons c t ih =>
    intro h hm
    unfold regexSearch at hm
    cases hx : matchHexAt (c :: t) with
    | some r => rw [hx] at hm; cases hm; exact matchHexAt_shape hx
    | none => rw [hx] at hm; exact ih hm

/-- The hex pattern is the first pattern of the cascade: when it matches, its
match is the extracted reference. -/
theorem extract_transaction_id_hex {raw h : List Char}
    (hhex : regexSearch matchHexAt raw = some h) :
    extract_transaction_id raw = some h := by
  unfold extract_transaction_id
  rw [hhex]

/-- Claim C6: reference-extraction priority.  For a message containing both a
`0x`+64-hex string and a `REF:`-shaped token, the cascade extracts the hex
hash found by the first pattern — not the REF token — the result has the full
hash shape, and the handler routes it to on-chain verification with the hash
case-normalized to lowercase. -/
theorem c6_hex_over_ref
    (raw h : List Char)
    (hhex : regexSearch matchHexAt raw = some h)
    (_href : (regexSearch (matchKwAt refPat) raw).isSome = true)
    (d n inv : String) (st : InvoiceState) (p : ParsedAction) (o : Oracle)
    (hpend : st.payment_status = "pending")
    (hint : intentOf p = "payment")
    (htx : truthy p.transaction_id = false) :
    extract_transaction_id raw = some h
    ∧ fullmatchHex h = true
    ∧ (handle_thread_message false true d n inv st p raw o).2.transaction_id
        = some (pyLower (String.mk h))
    ∧ .verifyOnChain (pyLower (String.mk h))
        ∈ (handle_thread_message false true d n inv st p raw o).1 := by
  have hext := extract_transaction_id_hex hhex
  have hshape := regexSearch_hex_shape hhex
  refine ⟨hext, hshape, ?_⟩
  have hns : intentOf p ≠ "status" := by rw [hint]; decide
  have hnd : ¬ (st.approval_status ≠ "pending"
      ∧ (intentOf p = "approve" ∨ intentOf p = "reject")) := by
    rintro ⟨-, hc | hc⟩ <;> rw [hint] at hc <;> exact absurd hc (by decide)
  have hna : ¬ (st.approval_status = "pending" ∧ intentOf p = "approve") := by
    rintro ⟨-, hc⟩; rw [hint] at hc; exact absurd hc (by decide)
  have hnr : ¬ (st.approval_status = "pending" ∧ intentOf p = "reject") := by
    rintro ⟨-, hc⟩; rw [hint] at hc; exact absurd hc (by decide)
  have hmain : handle_thread_message false true d n inv st p raw o
      = handle_payment false inv st p (intentOf p) raw o := by
    unfold handle_thread_message
    simp only [if_neg hns, if_neg hnd, if_neg hna, if_neg hnr]
    simp
  rw [hmain]
  have hnc : ¬ (truthy st.transaction_id = true ∧ st.payment_status = "completed") := by
    rintro ⟨-, hc⟩; rw [hpend] at hc; exact absurd hc (by decide)
  have hlooks : (intentOf p = "payment"
      ∨ (["TX", "TRANSACTION", "REF", "PAYMENT", "COMPLETED"].any
          (fun k => containsSub k.data (raw.map Char.toUpper))) = true
      ∨ (regexSearch matchHexAt raw).isSome = true) := Or.inl hint
  have hfull : fullmatchHexStr (String.mk h) = true := hshape
  unfold handle_payment
  simp only [if_pos hpend, if_pos hlooks, if_neg hnc, htx, hext]
  simp [hfull, safeSend, update_spreadsheet_row]

/-- Witness for C6: a message carrying both the sample hash and `REF:
ABC123` extracts and verifies the hash, lowercased. -/
theorem c6_hex_over_ref_witness :
    extract_transaction_id (("Paid " ++ hex64 ++ " REF: ABC123").data)
      = some hex64.data
    ∧ fullmatchHex hex64.data = true
    ∧ (handle_thread_message false true "Ann" "ann" "INV-2025-001" samplePending
        ⟨some "payment", none, none, none⟩ (("Paid " ++ hex64 ++ " REF: ABC123").data)
        nullOracle).2.transaction_id = some (pyLower (String.mk hex64.data))
    ∧ .verifyOnChain (pyLower (String.mk hex64.data))
        ∈ (handle_thread_message false true "Ann" "ann" "INV-2025-001" samplePending
            ⟨some "payment", none, none, none⟩
            (("Paid " ++ hex64 ++ " REF: ABC123").data) nullOracle).1 :=
  c6_hex_over_ref (("Paid " ++ hex64 ++ " REF: ABC123").data) hex64.data
    (by decide) (by decide) "Ann" "ann" "INV-2025-001" samplePending
    ⟨some "payment", none, none, none⟩ nullOracle (by decide) (by decide) (by decide)

/-! ## Claim C7 -/

/-- Claim C7: payment verification is fail-closed.  If the receipt-status
oracle call errors or reports a status other than `"1"`,
`check_transaction_success` is `false`; an erroring value call yields amount
`0`; and the handler, given a hash-shaped reference, sets the record's
`payment_status` to `failed`, not `completed`.  The adapter itself catches
every exception (it is embedded as a total function) and never raises to the
handler. -/
theorem c7_fail_closed
    (o : Oracle) (t : String)
    (hrc : o.receiptStatus (pyLower t) = .err
         ∨ ∀ s, o.receiptStatus (pyLower t) = .ok s → s ≠ some "1")
    (d n inv : String) (st : InvoiceState) (p : ParsedAction) (raw : List Char)
    (hpend : st.payment_status = "pending")
    (hint : intentOf p = "payment")
    (htx : p.transaction_id = some t)
    (hhex : fullmatchHexStr t = true) :
    check_transaction_success o (pyLower t) = false
    ∧ (∀ tx, o.txnValueWei tx = .err → get_transaction_amount_eth o tx = 0)
    ∧ (handle_thread_message false true d n inv st p raw o).2.payment_status
        = "failed"
    ∧ (handle_thread_message false true d n inv st p raw o).2.payment_status
        ≠ "completed" := by
  have hchk : check_transaction_success o (pyLower t) = false := by
    unfold check_transaction_success
    rcases hrc with herr | hok
    · rw [herr]
    · cases hr : o.receiptStatus (pyLower t) with
      | err => rfl
      | ok s => exact decide_eq_false (hok s hr)
  have hamt : ∀ tx, o.txnValueWei tx = .err → get_transaction_amount_eth o tx = 0 := by
    intro tx herr
    unfold get_transaction_amount_eth
    rw [herr]
  refine ⟨hchk, hamt, ?_⟩
  have hne : t ≠ "" := by
    intro he
    rw [he] at hhex
    exact absurd hhex (by decide)
  have htr : truthy p.transaction_id = true := by
    rw [htx]
    simpa [truthy] using hne
  have hns : intentOf p ≠ "status" := by rw [hint]; decide
  have hnd : ¬ (st.approval_status ≠ "pending"
      ∧ (intentOf p = "approve" ∨ intentOf p = "reject")) := by
    rintro ⟨-, hc | hc⟩ <;> rw [hint] at hc <;> exact absurd hc (by decide)
  have hna : ¬ (st.approval_status = "pending" ∧ intentOf p = "approve") := by
    rintro ⟨-, hc⟩; rw [hint] at hc; exact absurd hc (by decide)
  have hnr : ¬ (st.approval_status = "pending" ∧ intentOf p = "reject") := by
    rintro ⟨-, hc⟩; rw [hint] at hc; exact absurd hc (by decide)
  have hmain : handle_thread_message false true d n inv st p raw o
      = handle_payment false inv st p (intentOf p) raw o := by
    unfold handle_thread_message
    simp only [if_neg hns, if_neg hnd, if_neg hna, if_neg hnr]
    simp
  rw [hmain]
  have hnc : ¬ (truthy st.transaction_id = true ∧ st.payment_status = "completed") := by
    rintro ⟨-, hc⟩; rw [hpend] at hc; exact absurd hc (by decide)
  have hlooks : (intentOf p = "payment"
      ∨ (["TX", "TRANSACTION", "REF", "PAYMENT", "COMPLETED"].any
          (fun k => containsSub k.data (raw.map Char.toUpper))) = true
      ∨ (regexSearch matchHexAt raw).isSome = true) := Or.inl hint
  have htr2 : truthy (some t) = true := by simp [truthy, hne]
  unfold handle_payment
  simp only [if_pos hpend, if_pos hlooks, if_neg hnc, htx, htr2]
  simp [hhex, hchk, safeSend, update_spreadsheet_row]

/-- Witness for C7: the sample hash against an oracle reporting receipt
status `"0"` (and an erroring value call) marks the payment failed. -/
theorem c7_fail_closed_witness :
    check_transaction_success failOracle (pyLower hex64) = false
    ∧ (failOracle.txnValueWei "x" = .err →
        get_transaction_amount_eth failOracle "x" = 0)
    ∧ (handle_thread_message false true "Ann" "ann" "INV-2025-001" samplePending
        ⟨some "payment", none, none, some hex64⟩ (("paid " ++ hex64).data)
        failOracle).2.payment_status = "failed" := by
  have h := c7_fail_closed failOracle hex64
    (Or.inr (fun s hs => by
      cases hs
      decide))
    "Ann" "ann" "INV-2025-001" samplePending
    ⟨some "payment", none, none, some hex64⟩ (("paid " ++ hex64).data)
    (by decide) (by decide) (by decide) (by decide)
  exact ⟨h.1, fun _ => h.2.1 "x" rfl, h.2.2.1⟩

/-! ## Claim C10 -/

/-- The spreadsheet-mirror pass never sends the format-guidance reply. -/
theorem guidance_not_in_mirror (st : InvoiceState) :
    Effect.sendFormatGuidance ∉ update_spreadsheet_row st := by
  unfold update_spreadsheet_row
  split <;> simp

/-- `safe_send` of any other message never yields the format-guidance reply. -/
theorem guidance_not_in_safeSend (sd : Bool) (e : Effect)
    (he : e ≠ .sendFormatGuidance) :
    Effect.sendFormatGuidance ∉ safeSend sd e := by
  unfold safeSend
  split
  · simp
  · simp
    exact fun hc => he hc.symm

/-- `process_approval_message` never sends the format-guidance reply. -/
theorem guidance_not_in_process_approval (sd : Bool) (d n c : String)
    (st : InvoiceState) (dec : String) :
    Effect.sendFormatGuidance ∉ (process_approval_message sd d n c st dec).1 := by
  unfold process_approval_message
  dsimp only
  split
  · split
    · intro hmem
      simp only [List.mem_append] at hmem
      rcases hmem with (h | h) | h
      · exact guidance_not_in_safeSend sd _ (by simp) h
      · simp at h
      · exact guidance_not_in_mirror _ h
    · intro hmem
      exact guidance_not_in_safeSend sd _ (by simp) hmem
  · split
    · intro hmem
      simp only [List.mem_append] at hmem
      rcases hmem with (h | h) | h
      · exact guidance_not_in_safeSend sd _ (by simp) h
      · simp at h
      · exact guidance_not_in_mirror _ h
    · intro hmem
      simp only [List.mem_append] at hmem
      rcases hmem with h | h
      · simp at h
      · exact guidance_not_in_mirror _ h

/-- When the payment section emits the format-guidance reply, the resolver
intent was `payment` and the whole reference cascade matched nothing. -/
theorem guidance_in_handle_payment (sd : Bool) (inv : String) (st : InvoiceState)
    (p : ParsedAction) (intent : String) (raw : List Char) (o : Oracle)
    (hmem : Effect.sendFormatGuidance ∈ (handle_payment sd inv st p intent raw o).1) :
    intent = "payment" ∧ extract_transaction_id raw = none := by
  unfold handle_payment at hmem
  dsimp only at hmem
  split at hmem
  · split at hmem
    · split at hmem
      · exact absurd hmem (guidance_not_in_safeSend sd _ (by simp))
      · generalize htid : (if truthy p.transaction_id = true then p.transaction_id
            else (extract_transaction_id raw).map String.mk) = tid at hmem
        cases tid with
        | some t =>
          dsimp only at hmem
          split at hmem
          · simp only [List.mem_cons, List.mem_append] at hmem
            rcases hmem with ((h | h | h) | h) | h
            · cases h
            · cases h
            · cases h
            · exact absurd h (guidance_not_in_mirror _)
            · exact absurd h (guidance_not_in_safeSend sd _ (by simp))
          · simp only [List.mem_cons, List.mem_append] at hmem
            rcases hmem with ((h | h) | h) | h
            · cases h
            · cases h
            · exact absurd h (guidance_not_in_mirror _)
            · exact absurd h (guidance_not_in_safeSend sd _ (by simp))
        | none =>
          dsimp only at hmem
          split at hmem
          · rename_i hpay
            refine ⟨hpay, ?_⟩
            by_cases htp : truthy p.transaction_id = true
            · rw [if_pos htp] at htid
              rw [htid] at htp
              exact absurd htp (by decide)
            · rw [if_neg htp] at htid
              exact Option.map_eq_none'.mp htid
          · simp at hmem
    · simp at hmem
  · simp at hmem

/-- Claim C10: trust-path over-capture.  First part: on a record with
pending payment, an authorized message whose resolver result carries no
transaction reference and whose text is `PAYMENT COMPLETED` has the word
`COMPLETED` captured by the `PAYMENT`-keyword pattern as the transaction
reference, which immediately (no verification) sets `payment_status` to
`completed` with `transaction_ref` `COMPLETED` and persists it.  Second
part: the format-guidance reply is sent only when the resolver intent is
`payment` and no cascade pattern — including the bare ≥8-character token
pattern — matches anything in the text. -/
theorem c10_payment_keyword_overcapture :
    (∀ (d n inv : String) (st : InvoiceState) (p : ParsedAction) (o : Oracle),
      st.payment_status = "pending" →
      p.transaction_id = none →
      intentOf p ≠ "status" → intentOf p ≠ "approve" → intentOf p ≠ "reject" →
      (handle_thread_message false true d n inv st p
          ("PAYMENT COMPLETED".data) o).2.payment_status = "completed"
      ∧ (handle_thread_message false true d n inv st p
          ("PAYMENT COMPLETED".data) o).2.transaction_id = some "COMPLETED"
      ∧ .saveState inv (handle_thread_message false true d n inv st p
            ("PAYMENT COMPLETED".data) o).2
          ∈ (handle_thread_message false true d n inv st p
              ("PAYMENT COMPLETED".data) o).1)
    ∧ (∀ (sd role : Bool) (d n inv : String) (st : InvoiceState)
        (p : ParsedAction) (raw : List Char) (o : Oracle),
        .sendFormatGuidance ∈ (handle_thread_message sd role d n inv st p raw o).1 →
        intentOf p = "payment" ∧ extract_transaction_id raw = none) := by
  constructor
  · intro d n inv st p o hpend htxnone hi1 hi2 hi3
    have hnd : ¬ (st.approval_status ≠ "pending"
        ∧ (intentOf p = "approve" ∨ intentOf p = "reject")) := by
      rintro ⟨-, hc | hc⟩
      · exact hi2 hc
      · exact hi3 hc
    have hna : ¬ (st.approval_status = "pending" ∧ intentOf p = "approve") := by
      rintro ⟨-, hc⟩; exact hi2 hc
    have hnr : ¬ (st.approval_status = "pending" ∧ intentOf p = "reject") := by
      rintro ⟨-, hc⟩; exact hi3 hc
    have hmain : handle_thread_message false true d n inv st p
        ("PAYMENT COMPLETED".data) o
        = handle_payment false inv st p (intentOf p) ("PAYMENT COMPLETED".data) o := by
      unfold handle_thread_message
      simp only [if_neg hi1, if_neg hnd, if_neg hna, if_neg hnr]
      simp
    rw [hmain]
    have hnc : ¬ (truthy st.transaction_id = true
        ∧ st.payment_status = "completed") := by
      rintro ⟨-, hc⟩; rw [hpend] at hc; exact absurd hc (by decide)
    have hlooks : (intentOf p = "payment"
        ∨ (["TX", "TRANSACTION", "REF", "PAYMENT", "COMPLETED"].any
            (fun k => containsSub k.data
              (("PAYMENT COMPLETED".data).map Char.toUpper))) = true
        ∨ (regexSearch matchHexAt ("PAYMENT COMPLETED".data)).isSome = true) :=
      Or.inr (Or.inl (by decide))
    have hext : extract_transaction_id ("PAYMENT COMPLETED".data)
        = some ("COMPLETED".data) := by decide
    have hfalsy : truthy p.transaction_id = false := by rw [htxnone]; rfl
    have hfull : fullmatchHexStr (String.mk ("COMPLETED".data)) = false := by decide
    unfold handle_payment
    simp only [if_pos hpend, if_pos hlooks, if_neg hnc, hfalsy, hext]
    simp [hfull, safeSend, update_spreadsheet_row]
  · intro sd role d n inv st p raw o hmem
    unfold handle_thread_message at hmem
    cases sd with
    | true => simp at hmem
    | false =>
      cases role with
      | false => simp at hmem
      | true =>
        rw [if_neg (by decide : ¬ (false = true))] at hmem
        rw [if_neg (by decide : ¬ ¬ (true = true))] at hmem
        dsimp only at hmem
        by_cases h1 : intentOf p = "status"
        · rw [if_pos h1] at hmem
          exact absurd hmem (guidance_not_in_safeSend false _ (by simp))
        · rw [if_neg h1] at hmem
          by_cases h2 : st.approval_status ≠ "pending"
              ∧ (intentOf p = "approve" ∨ intentOf p = "reject")
          · rw [if_pos h2] at hmem
            exact absurd hmem (guidance_not_in_safeSend false _ (by simp))
          · rw [if_neg h2] at hmem
            by_cases h3 : st.approval_status = "pending" ∧ intentOf p = "approve"
            · rw [if_pos h3] at hmem
              exact absurd hmem (guidance_not_in_process_approval _ _ _ _ _ _)
            · rw [if_neg h3] at hmem
              by_cases h4 : st.approval_status = "pending" ∧ intentOf p = "reject"
              · rw [if_pos h4] at hmem
                exact absurd hmem (guidance_not_in_process_approval _ _ _ _ _ _)
              · rw [if_neg h4] at hmem
                exact guidance_in_handle_payment _ _ _ _ _ _ _ hmem

/-- Witness for C10: the literal `PAYMENT COMPLETED` on the sample pending
record completes payment with reference `COMPLETED`; and a guidance-provoking
`pay now` message indeed has payment intent and an empty cascade. -/
theorem c10_payment_keyword_overcapture_witness :
    ((handle_thread_message false true "Ann" "ann" "INV-2025-001" samplePending
        ⟨some "payment", none, none, none⟩
        ("PAYMENT COMPLETED".data) nullOracle).2.payment_status = "completed"
      ∧ (handle_thread_message false true "Ann" "ann" "INV-2025-001" samplePending
          ⟨some "payment", none, none, none⟩
          ("PAYMENT COMPLETED".data) nullOracle).2.transaction_id = some "COMPLETED"
      ∧ .saveState "INV-2025-001"
          (handle_thread_message false true "Ann" "ann" "INV-2025-001" samplePending
            ⟨some "payment", none, none, none⟩
            ("PAYMENT COMPLETED".data) nullOracle).2
        ∈ (handle_thread_message false true "Ann" "ann" "INV-2025-001" samplePending
            ⟨some "payment", none, none, none⟩
            ("PAYMENT COMPLETED".data) nullOracle).1)
    ∧ (intentOf ⟨some "payment", none, none, none⟩ = "payment"
        ∧ extract_transaction_id ("pay now".data) = none) :=
  ⟨c10_payment_keyword_overcapture.1 "Ann" "ann" "INV-2025-001" samplePending
      ⟨some "payment", none, none, none⟩ nullOracle
      (by decide) rfl (by decide) (by decide) (by decide),
   c10_payment_keyword_overcapture.2 false true "Ann" "ann" "INV-2025-001"
      samplePending ⟨some "payment", none, none, none⟩ ("pay now".data) nullOracle
      (by decide)⟩

end Graphay
